import Mathlib

/-!
Shallow embedding of `src/tasks/Dashboard.py` (class `DashboardPOO`).

The program is an interactive console menu: three nested input loops
(`mostrar_menu_principal` / `mostrar_submenu` / `mostrar_menu_scripts`),
a file lister (`obtener_subcarpetas` / `obtener_scripts`), a file viewer
(`mostrar_codigo`) and a process launcher (`ejecutar_codigo`).

Modelling choices:
* The outside world is an `Env`: `scandir` and `readBytes` model the
  filesystem (an `Except` error is a raised `OSError`, carrying `str(e)`),
  `popenErr` models `subprocess.Popen` (`some e` means the spawn call
  raised), `osName` models `os.name`, `abspath` models `os.path.abspath`.
  Nothing in the program writes to the filesystem, so `Env` is immutable.
* Observable effects (console prints, log records, process spawns) are
  collected as a list of `Ev` events, in program order.  A prompt passed to
  Python's `input(...)` is printed to the console, so it appears as an
  `Ev.out` event.
* Python's `open(path, 'r', encoding='utf-8').read()` strictly decodes the
  file's bytes as UTF-8 and then applies universal-newline translation
  ("\r\n" and lone "\r" become "\n"); `decodeUtf8` and `universalNewlines`
  model those two stages.
* Each iteration of one of the three `while True:` loops is one `step` of a
  state machine over `St`; the loop body reads lines from a list of pending
  input lines.  `input()` on exhausted input raises `EOFError`, which the
  program never catches; any uncaught exception is a `StepRes.crash`.
* `str.strip()` is modelled by `String.trim` and `str.upper()` by
  `String.toUpper` (ASCII behaviour; the inputs the program compares
  against are ASCII).  `int(...)` is modelled by `pyInt?` (optional sign,
  ASCII digits, underscores between digits).
-/

namespace Dashboard

/-! ### Python text-mode file reading -/

/-- Is `b` a UTF-8 continuation byte (`0x80..0xBF`)? -/
def utf8Cont (b : Nat) : Bool := 0x80 ≤ b && b < 0xC0

/-- Strict UTF-8 decoding, fuelled so that it is structural (the fuel is an
upper bound on the number of bytes consumed; each code point consumes at
least one byte).  Rejects stray continuation bytes, truncated sequences,
overlong encodings, surrogates and code points above `0x10FFFF`, exactly
the sequences Python's strict `utf-8` codec rejects. -/
def decAux : Nat → List Nat → Option (List Char)
  | _, [] => some []
  | 0, _ :: _ => none
  | fuel+1, b :: rest =>
    if b < 0x80 then
      (decAux fuel rest).map (fun cs => Char.ofNat b :: cs)
    else if b < 0xC2 then none
    else if b < 0xE0 then
      match rest with
      | b1 :: rest1 =>
        if utf8Cont b1 then
          (decAux fuel rest1).map
            (fun cs => Char.ofNat ((b - 0xC0) * 0x40 + (b1 - 0x80)) :: cs)
        else none
      | [] => none
    else if b < 0xF0 then
      match rest with
      | b1 :: b2 :: rest2 =>
        if utf8Cont b1 && utf8Cont b2 then
          let cp := (b - 0xE0) * 0x1000 + (b1 - 0x80) * 0x40 + (b2 - 0x80)
          if cp < 0x800 then none
          else if 0xD800 ≤ cp && cp < 0xE000 then none
          else (decAux fuel rest2).map (fun cs => Char.ofNat cp :: cs)
        else none
      | _ => none
    else if b < 0xF5 then
      match rest with
      | b1 :: b2 :: b3 :: rest3 =>
        if utf8Cont b1 && utf8Cont b2 && utf8Cont b3 then
          let cp := (b - 0xF0) * 0x40000 + (b1 - 0x80) * 0x1000 +
                    (b2 - 0x80) * 0x40 + (b3 - 0x80)
          if cp < 0x10000 then none
          else if 0x110000 ≤ cp then none
          else (decAux fuel rest3).map (fun cs => Char.ofNat cp :: cs)
        else none
      | _ => none
    else none

/-- Decode a byte sequence as strict UTF-8 (Python `bytes.decode('utf-8')`). -/
def decodeUtf8 (bs : List Nat) : Option (List Char) := decAux bs.length bs

/-- Universal-newline translation performed by Python's text-mode read with
`newline=None` (the default): `"\r\n"` and lone `"\r"` both become `"\n"`. -/
def universalNewlines : List Char → List Char
  | [] => []
  | '\r' :: '\n' :: rest => '\n' :: universalNewlines rest
  | '\r' :: rest => '\n' :: universalNewlines rest
  | c :: rest => c :: universalNewlines rest

/-- The text produced by `open(path, 'r', encoding='utf-8').read()` from the
file's on-disk bytes: strict UTF-8 decoding followed by universal-newline
translation.  `none` is a raised `UnicodeDecodeError`. -/
def pyReadText (bs : List Nat) : Option String :=
  (decodeUtf8 bs).map (fun cs => (universalNewlines cs).asString)

/-! ### Observable events and the environment -/

/-- Log severities used by the program (`logging.info` / `warning` / `error`). -/
inductive Level where
  | info
  | warning
  | error
deriving DecidableEq

/-- One observable effect: a console print (`Ev.out`, also covering the
echoed prompt of `input(...)`), an appended log record, or a spawned
process with its argument vector. -/
inductive Ev where
  | out (s : String)
  | log (lv : Level) (msg : String)
  | spawn (cmd : List String)
deriving DecidableEq

/-- One directory entry as yielded by `os.scandir`: its `name`, and the
results of `entry.is_dir()` and `entry.is_file()`. -/
structure Entry where
  name : String
  isDir : Bool
  isFile : Bool
deriving DecidableEq

/-- The outside world.  `scandir ruta` is `os.scandir(ruta)` (`Except.error`
is a raised `OSError` with message `str(e)`); `readBytes p` is opening and
fully reading file `p` in binary (`Except.error` likewise); `popenErr cmd`
is `subprocess.Popen(cmd)` (`some e` means the call raised); `osName` is
`os.name`; `abspath` is `os.path.abspath`; `rutaBase` is `self.ruta_base`. -/
structure Env where
  osName : String
  rutaBase : String
  scandir : String → Except String (List Entry)
  readBytes : String → Except String (List Nat)
  abspath : String → String
  popenErr : List String → Option String

/-- `os.path.join` for a relative second component (the only way the
program ever calls it). -/
def pathJoin (a b : String) : String := a ++ "/" ++ b

/-- Worker for `basename`: keep the characters seen since the last `'/'`. -/
def basenameAux : List Char → List Char → List Char
  | acc, [] => acc
  | _, '/' :: rest => basenameAux [] rest
  | acc, c :: rest => basenameAux (acc ++ [c]) rest

/-- `os.path.basename`: the part after the last path separator. -/
def basename (s : String) : String := (basenameAux [] s.data).asString

/-- Does `s` end with `suf` (`str.endswith`)? -/
def strEndsWith (s suf : String) : Bool :=
  List.isPrefixOf suf.data.reverse s.data.reverse

/-- `str(e)` of the `UnicodeDecodeError` raised for a non-UTF-8 file
(the exact Python message also carries the offending byte and offset; only
its presence matters here). -/
def utf8ErrorMsg : String := "invalid utf-8 byte sequence"

/-- The `self.unidades` mapping built in `__init__`: menu key to unit
folder name, in insertion order. -/
def unidades : List (String × String) :=
  [("1", "Unidad 1 - Fundamentos POO"),
   ("2", "Unidad 2 - Herencia y Polimorfismo"),
   ("3", "Unidad 3 - Patrones de Diseño"),
   ("4", "Unidad 4 - Proyectos Prácticos")]

/-- The whitespace characters `str.strip()` removes (ASCII model). -/
def isPyWs (c : Char) : Bool :=
  c = ' ' || c = '\t' || c = '\n' || c = '\r' || c = '\x0b' || c = '\x0c'

/-- `str.strip()`: drop leading and trailing whitespace. -/
def pyStrip (s : String) : String :=
  (((s.data.dropWhile isPyWs).reverse.dropWhile isPyWs).reverse).asString

/-- `str.upper()` on one character (ASCII model). -/
def pyCharUpper (c : Char) : Char :=
  if 'a' ≤ c && c ≤ 'z' then Char.ofNat (c.toNat - 32) else c

/-- `str.upper()`. -/
def pyUpper (s : String) : String := (s.data.map pyCharUpper).asString

/-- `int(s)` for an already-stripped string: optional sign followed by
ASCII digits, single underscores allowed between digits; `none` is a
raised `ValueError`. -/
def pyDigitsAux : Nat → List Char → Option Nat
  | acc, [] => some acc
  | acc, c :: rest =>
    if c.isDigit then pyDigitsAux (acc * 10 + (c.toNat - 48)) rest
    else if c = '_' then
      match rest with
      | d :: rest1 =>
        if d.isDigit then pyDigitsAux (acc * 10 + (d.toNat - 48)) rest1
        else none
      | [] => none
    else none

/-- Digits (with internal underscores) starting with a digit. -/
def pyDigits : List Char → Option Nat
  | [] => none
  | c :: rest => if c.isDigit then pyDigitsAux (c.toNat - 48) rest else none

/-- `int(s)`: see `pyDigits`.  `none` models a raised `ValueError`. -/
def pyInt? (s : String) : Option Int :=
  match s.data with
  | '-' :: rest => (pyDigits rest).map (fun n => -(n : Int))
  | '+' :: rest => (pyDigits rest).map (fun n => (n : Int))
  | l => (pyDigits l).map (fun n => (n : Int))

/-- Truthiness of the `Optional[str]` returned by `mostrar_codigo`:
`None` and the empty string are falsy, any non-empty string is truthy. -/
def pyTruthy : Option String → Bool
  | none => false
  | some s => s != ""

/-! ### Leaf components -/

/-- `obtener_subcarpetas` (Dashboard.py lines 77-87): names of the
immediate child directories of `ruta`, in `os.scandir` enumeration order.
A `scandir` failure propagates (the function does no error handling). -/
def obtener_subcarpetas (env : Env) (ruta : String) : Except String (List String) :=
  match env.scandir ruta with
  | .error e => .error e
  | .ok entries => .ok ((entries.filter (fun f => f.isDir)).map (fun f => f.name))

/-- `obtener_scripts` (Dashboard.py lines 89-99): names of the immediate
child files of `ruta` whose name ends with `".py"`, in enumeration order.
A `scandir` failure propagates. -/
def obtener_scripts (env : Env) (ruta : String) : Except String (List String) :=
  match env.scandir ruta with
  | .error e => .error e
  | .ok entries =>
    .ok ((entries.filter (fun f => f.isFile && strEndsWith f.name ".py")).map (fun f => f.name))

/-- `"=" * 50`. -/
def banner50 : String := (List.replicate 50 '=').asString

/-- `"=" * 40`. -/
def banner40 : String := (List.replicate 40 '=').asString

/-- `mostrar_codigo` (Dashboard.py lines 35-58): read the file at
`os.path.abspath(ruta_script)` as UTF-8 text; on success print the banner,
header, banner and the text, log one INFO record and return the text; on
any failure (open/read `OSError` or `UnicodeDecodeError`) log one ERROR
record containing `ruta_script`, print a warning and return `None`.  The
`try`/`except Exception` means no exception escapes; accordingly the model
is a total function. -/
def mostrar_codigo (env : Env) (ruta_script : String) : Option String × List Ev :=
  let abs := env.abspath ruta_script
  match env.readBytes abs with
  | .error e =>
      (none, [.log .error ("Error al leer archivo " ++ ruta_script ++ ": " ++ e),
              .out ("\n⚠️ Error: " ++ e)])
  | .ok bytes =>
    match pyReadText bytes with
    | none =>
        (none, [.log .error ("Error al leer archivo " ++ ruta_script ++ ": " ++ utf8ErrorMsg),
                .out ("\n⚠️ Error: " ++ utf8ErrorMsg)])
    | some codigo =>
        (some codigo,
         [.out ("\n" ++ banner50),
          .out ("Código de " ++ basename ruta_script ++ ":"),
          .out (banner50 ++ "\n"),
          .out codigo,
          .log .info ("Archivo visualizado: " ++ ruta_script)])

/-- The argument vector `ejecutar_codigo` passes to `subprocess.Popen`:
`cmd /k` (shell window kept open) on the Windows family (`os.name == 'nt'`),
`xterm -hold` (window kept open) otherwise. -/
def spawnCmd (env : Env) (ruta_script : String) : List String :=
  if env.osName = "nt" then ["cmd", "/k", "python", ruta_script]
  else ["xterm", "-hold", "-e", "python3", ruta_script]

/-- `ejecutar_codigo` (Dashboard.py lines 60-75): spawn the platform's
terminal window running the script; on success log one INFO record; if the
spawn call raises, log one ERROR record and print a warning.  The
`try`/`except Exception` means no exception escapes; accordingly the model
is a total function. -/
def ejecutar_codigo (env : Env) (ruta_script : String) : List Ev :=
  match env.popenErr (spawnCmd env ruta_script) with
  | none => [.spawn (spawnCmd env ruta_script),
             .log .info ("Script ejecutado: " ++ ruta_script)]
  | some e => [.log .error ("Error al ejecutar " ++ ruta_script ++ ": " ++ e),
               .out ("\n⚠️ Error al ejecutar: " ++ e)]

/-! ### The menu state machine

One `step` is one iteration of the `while True:` loop the controller is
currently in.  `St.main` is the loop of `mostrar_menu_principal`,
`St.topic ruta` the loop of `mostrar_submenu(ruta)`, and
`St.script tema unidad` the loop of `mostrar_menu_scripts(tema)` (recording
the unit path `unidad` that the enclosing `mostrar_submenu` resumes with
when the script menu breaks).  `St.exited` is reached only by choosing
`"0"` at the main menu. -/

inductive St where
  | main
  | topic (rutaUnidad : String)
  | script (rutaTema : String) (rutaUnidad : String)
  | exited
deriving DecidableEq

/-- Result of one loop iteration: continue at state `s` having produced
`evs` and leaving `rest` of the input unread, or crash with an uncaught
exception (`OSError` from `os.scandir`, or `EOFError` from `input()` on
exhausted input). -/
inductive StepRes where
  | next (s : St) (evs : List Ev) (rest : List String)
  | crash (exn : String) (evs : List Ev) (rest : List String)
deriving DecidableEq

/-- The numbered line `print(f"{i} - {name}")` of a submenu listing. -/
def enumLine (i : Nat) (name : String) : String :=
  Nat.repr i ++ " - " ++ name

/-- The lines one render of the main menu prints, including the prompt
echoed by `input(...)` (Dashboard.py lines 104-111). -/
def mainRenderLines : List String :=
  ["\n🎯 Dashboard POO - Menú Principal", banner40]
  ++ unidades.map (fun kv => kv.fst ++ " - " ++ kv.snd)
  ++ ["0 - Salir", banner40, "\nSeleccione una opción: "]

/-- Console output of one render of the main menu. -/
def mainRenderEvs : List Ev := mainRenderLines.map Ev.out

/-- The lines one render of the topic submenu prints for listing `subs`
(Dashboard.py lines 133-140). -/
def topicRenderLines (subs : List String) : List String :=
  ["\n📚 Temas Disponibles", banner40]
  ++ subs.enum.map (fun ic => enumLine (ic.fst + 1) ic.snd)
  ++ ["0 - Volver al menú principal", banner40, "\nSeleccione un tema: "]

/-- Console output of one render of the topic submenu. -/
def topicRenderEvs (subs : List String) : List Ev := (topicRenderLines subs).map Ev.out

/-- The lines one render of the script submenu prints for listing
`scripts` (Dashboard.py lines 163-170). -/
def scriptRenderLines (scripts : List String) : List String :=
  ["\n📝 Scripts Disponibles", banner40]
  ++ scripts.enum.map (fun ic => enumLine (ic.fst + 1) ic.snd)
  ++ ["0 - Volver al menú de temas", banner40, "\nSeleccione un script: "]

/-- Console output of one render of the script submenu. -/
def scriptRenderEvs (scripts : List String) : List Ev := (scriptRenderLines scripts).map Ev.out

/-- One iteration of the `mostrar_menu_principal` loop (lines 103-121),
from the render down to the dispatch on the read line. -/
def stepMain (env : Env) (inputs : List String) : StepRes :=
  match inputs with
  | [] => .crash "EOFError" mainRenderEvs []
  | line :: rest =>
    let eleccion := pyStrip line
    if eleccion = "0" then
      .next .exited
        (mainRenderEvs ++ [.out "\n👋 ¡Hasta pronto!", .log .info "Sesión finalizada"]) rest
    else
      match List.lookup eleccion unidades with
      | some nombre => .next (.topic (pathJoin env.rutaBase nombre)) mainRenderEvs rest
      | none =>
        .next .main
          (mainRenderEvs ++ [.out "\n⚠️ Opción no válida",
                             .log .warning ("Opción inválida seleccionada: " ++ eleccion)]) rest

/-- The body of one `mostrar_submenu` iteration after `obtener_subcarpetas`
succeeded with listing `subs` (lines 133-151). -/
def stepTopicOk (ruta : String) (subs : List String) (inputs : List String) : StepRes :=
  match inputs with
  | [] => .crash "EOFError" (topicRenderEvs subs) []
  | line :: rest =>
    let eleccion := pyStrip line
    if eleccion = "0" then .next .main (topicRenderEvs subs) rest
    else
      match pyInt? eleccion with
      | none =>
        .next (.topic ruta)
          (topicRenderEvs subs ++ [.out "\n⚠️ Por favor, ingrese un número válido"]) rest
      | some n =>
        let idx := n - 1
        if 0 ≤ idx ∧ idx < (subs.length : Int) then
          .next (.script (pathJoin ruta (subs.getD idx.toNat "")) ruta)
            (topicRenderEvs subs) rest
        else
          .next (.topic ruta) (topicRenderEvs subs ++ [.out "\n⚠️ Tema no válido"]) rest

/-- One iteration of the `mostrar_submenu(ruta)` loop (lines 130-151).  The
call to `obtener_subcarpetas` at the top of the loop body is outside the
`try`, so its `OSError` propagates and the process dies. -/
def stepTopic (env : Env) (ruta : String) (inputs : List String) : StepRes :=
  match obtener_subcarpetas env ruta with
  | .error e => .crash e [] inputs
  | .ok subs => stepTopicOk ruta subs inputs

/-- The body of one `mostrar_menu_scripts` iteration after
`obtener_scripts` succeeded with listing `scripts` (lines 163-185).  An
in-range selection views the script; if the returned value is truthy the
run-confirmation prompt is read and `ejecutar_codigo` runs exactly when
the reply uppercases to `"S"`; either way one more line (the
`"Presione Enter"` acknowledgment) is consumed before re-entering the same
state. -/
def stepScriptOk (env : Env) (tema unidad : String) (scripts : List String)
    (inputs : List String) : StepRes :=
  match inputs with
  | [] => .crash "EOFError" (scriptRenderEvs scripts) []
  | line :: rest =>
    let eleccion := pyStrip line
    if eleccion = "0" then .next (.topic unidad) (scriptRenderEvs scripts) rest
    else
      match pyInt? eleccion with
      | none =>
        .next (.script tema unidad)
          (scriptRenderEvs scripts ++ [.out "\n⚠️ Por favor, ingrese un número válido"]) rest
      | some n =>
        let idx := n - 1
        if 0 ≤ idx ∧ idx < (scripts.length : Int) then
          let ruta_script := pathJoin tema (scripts.getD idx.toNat "")
          let view := mostrar_codigo env ruta_script
          if pyTruthy view.fst then
            match rest with
            | [] =>
              .crash "EOFError"
                (scriptRenderEvs scripts ++ view.snd ++
                 [.out "\n¿Desea ejecutar el script? (S/N): "]) []
            | conf :: rest2 =>
              let execEvs := if pyUpper conf = "S" then ejecutar_codigo env ruta_script else []
              match rest2 with
              | [] =>
                .crash "EOFError"
                  (scriptRenderEvs scripts ++ view.snd ++
                   [.out "\n¿Desea ejecutar el script? (S/N): "] ++ execEvs ++
                   [.out "\nPresione Enter para continuar..."]) []
              | _ :: rest3 =>
                .next (.script tema unidad)
                  (scriptRenderEvs scripts ++ view.snd ++
                   [.out "\n¿Desea ejecutar el script? (S/N): "] ++ execEvs ++
                   [.out "\nPresione Enter para continuar..."]) rest3
          else
            match rest with
            | [] =>
              .crash "EOFError"
                (scriptRenderEvs scripts ++ view.snd ++
                 [.out "\nPresione Enter para continuar..."]) []
            | _ :: rest2 =>
              .next (.script tema unidad)
                (scriptRenderEvs scripts ++ view.snd ++
                 [.out "\nPresione Enter para continuar..."]) rest2
        else
          .next (.script tema unidad)
            (scriptRenderEvs scripts ++ [.out "\n⚠️ Script no válido"]) rest

/-- One iteration of the `mostrar_menu_scripts(tema)` loop (lines 160-185).
As in `stepTopic`, the `obtener_scripts` call is outside the `try`, so its
`OSError` propagates. -/
def stepScript (env : Env) (tema unidad : String) (inputs : List String) : StepRes :=
  match obtener_scripts env tema with
  | .error e => .crash e [] inputs
  | .ok scripts => stepScriptOk env tema unidad scripts inputs

/-- One loop iteration of whichever loop the controller is in.  `St.exited`
is terminal: the process has already printed its goodbye and returned. -/
def step (env : Env) : St → List String → StepRes
  | .main, inputs => stepMain env inputs
  | .topic ruta, inputs => stepTopic env ruta inputs
  | .script tema unidad, inputs => stepScript env tema unidad inputs
  | .exited, inputs => .next .exited [] inputs

/-! ### Concrete test environments

A small world with the layout the spec's end-to-end scenario describes:
one existing unit folder containing one topic folder, which holds two
Python scripts (one non-empty, one empty), one non-UTF-8 Python script,
one CRLF-terminated Python script and one non-Python file.  Every other
path fails to list or read. -/

/-- Path of the only existing unit directory. -/
def unidad1Path : String := "base/Unidad 1 - Fundamentos POO"

/-- Path of the only topic directory. -/
def temaPath : String := "base/Unidad 1 - Fundamentos POO/ClassesIntro"

/-- Bytes of `hello.py`: the text `"hi\n"`. -/
def helloBytes : List Nat := [104, 105, 10]

/-- Bytes of `crlf.py`: the text `"a\r\nb"` with a CRLF line ending. -/
def crlfBytes : List Nat := [97, 13, 10, 98]

/-- A demo world: `scandir` knows the unit and topic directories,
`readBytes` knows the scripts' bytes (`bad.py` holds the lone continuation
byte `0x80`, which no UTF-8 decoding accepts), everything else raises. -/
def envDemo : Env :=
  ⟨"posix", "base",
   fun p =>
     if p = unidad1Path then .ok [⟨"ClassesIntro", true, false⟩]
     else if p = temaPath then
       .ok [⟨"hello.py", false, true⟩, ⟨"empty.py", false, true⟩,
            ⟨"crlf.py", false, true⟩, ⟨"bad.py", false, true⟩,
            ⟨"notes.txt", false, true⟩, ⟨"sub", true, false⟩]
     else .error "FileNotFoundError: [Errno 2] No such file or directory",
   fun p =>
     if p = "/abs/" ++ temaPath ++ "/hello.py" then .ok helloBytes
     else if p = "/abs/" ++ temaPath ++ "/empty.py" then .ok []
     else if p = "/abs/" ++ temaPath ++ "/crlf.py" then .ok crlfBytes
     else if p = "/abs/" ++ temaPath ++ "/bad.py" then .ok [128]
     else .error "[Errno 2] No such file or directory",
   fun p => "/abs/" ++ p,
   fun _ => none⟩

/-- A world in which every filesystem operation fails and, additionally,
every process spawn fails (`os.name` is `"nt"` here, to exercise the
Windows branch of `ejecutar_codigo`). -/
def envBroken : Env :=
  ⟨"nt", "base",
   fun _ => .error "FileNotFoundError: [Errno 2] No such file or directory",
   fun _ => .error "[Errno 2] No such file or directory",
   fun p => "/abs/" ++ p,
   fun _ => some "[WinError 2] The system cannot find the file specified"⟩

/-! ### Event classifiers -/

/-- Does this event print a console warning line?  Every warning the
program prints (and nothing else it prints) starts with a newline followed
by the `⚠` warning sign. -/
def isWarnEv : Ev → Bool
  | .out s =>
    match s.data with
    | c1 :: c2 :: _ => c1 = '\n' && c2 = '⚠'
    | _ => false
  | _ => false

/-- Is this event a log record? -/
def isLogEv : Ev → Bool
  | .log _ _ => true
  | _ => false

/-- Is this event a process spawn? -/
def isSpawnEv : Ev → Bool
  | .spawn _ => true
  | _ => false

/-- Number of console warning lines among `evs`. -/
def warnCount (evs : List Ev) : Nat := (evs.filter isWarnEv).length

/-- Number of log records among `evs`. -/
def logCount (evs : List Ev) : Nat := (evs.filter isLogEv).length

/-- The events produced by a step, whether it continued or crashed. -/
def StepRes.events : StepRes → List Ev
  | .next _ evs _ => evs
  | .crash _ evs _ => evs

/-- The state a step continued at, or `none` if it crashed. -/
def StepRes.state : StepRes → Option St
  | .next s _ _ => some s
  | .crash _ _ _ => none

/-! ### Helper lemmas -/

theorem digitChar_lt_ne_newline : ∀ k < 16, Nat.digitChar k ≠ '\n' := by decide

theorem digitChar_mod_ne_newline (n : Nat) : Nat.digitChar (n % 10) ≠ '\n' :=
  digitChar_lt_ne_newline _ (by have := Nat.mod_lt n (show 0 < 10 by decide); omega)

theorem toDigitsCore_ne_newline (fuel : Nat) :
    ∀ (n : Nat) (ds : List Char), (∀ c ∈ ds, c ≠ '\n') →
      ∀ c ∈ Nat.toDigitsCore 10 fuel n ds, c ≠ '\n' := by
  induction fuel with
  | zero => intro n ds h c hc; exact h c hc
  | succ fuel ih =>
    intro n ds h c hc
    rw [Nat.toDigitsCore] at hc
    split at hc
    · rcases List.mem_cons.mp hc with h1 | h1
      · exact h1 ▸ digitChar_mod_ne_newline _
      · exact h c h1
    · refine ih _ _ ?_ c hc
      intro c' hc'
      rcases List.mem_cons.mp hc' with h1 | h1
      · exact h1 ▸ digitChar_mod_ne_newline _
      · exact h c' h1

theorem toDigitsCore_ne_nil_of_ds (fuel : Nat) :
    ∀ (n : Nat) (ds : List Char), ds ≠ [] → Nat.toDigitsCore 10 fuel n ds ≠ [] := by
  induction fuel with
  | zero => intro n ds h; exact h
  | succ fuel ih =>
    intro n ds h
    rw [Nat.toDigitsCore]
    split
    · exact List.cons_ne_nil _ _
    · exact ih _ _ (List.cons_ne_nil _ _)

theorem toDigitsCore_succ_ne_nil (fuel n : Nat) (ds : List Char) :
    Nat.toDigitsCore 10 (fuel + 1) n ds ≠ [] := by
  rw [Nat.toDigitsCore]
  split
  · exact List.cons_ne_nil _ _
  · exact toDigitsCore_ne_nil_of_ds _ _ _ (List.cons_ne_nil _ _)

/-- The decimal rendering of a number starts with some character that is
not a newline (it is a digit). -/
theorem repr_data_shape (n : Nat) :
    ∃ c cs, (Nat.repr n).data = c :: cs ∧ c ≠ '\n' := by
  have h1 : (Nat.repr n).data = Nat.toDigitsCore 10 (n + 1) n [] := rfl
  cases heq : Nat.toDigitsCore 10 (n + 1) n [] with
  | nil => exact absurd heq (toDigitsCore_succ_ne_nil _ _ _)
  | cons c cs =>
    refine ⟨c, cs, h1.trans heq, ?_⟩
    have hmem : c ∈ Nat.toDigitsCore 10 (n + 1) n [] := by
      rw [heq]; exact List.mem_cons_self _ _
    exact toDigitsCore_ne_newline _ _ _ (fun x hx => absurd hx (List.not_mem_nil x)) c hmem

theorem append_head {p : String} {c : Char} {cs : List Char}
    (hp : p.data = c :: cs) (x : String) : (p ++ x).data = c :: (cs ++ x.data) := by
  rw [String.data_append, hp]
  rfl

theorem ne_of_data_heads {s t : String} {c d : Char} {cs ds : List Char}
    (hs : s.data = c :: cs) (ht : t.data = d :: ds) (hcd : c ≠ d) : s ≠ t := by
  intro heq
  rw [heq, ht] at hs
  exact hcd (List.cons.injEq .. ▸ hs).1.symm

theorem isWarnEv_out_of_head {s : String} {c : Char} {cs : List Char}
    (hd : s.data = c :: cs) (hc : c ≠ '\n') : isWarnEv (.out s) = false := by
  simp only [isWarnEv]
  rw [hd]
  cases cs with
  | nil => rfl
  | cons c2 cs2 => simp [hc]

theorem isWarnEv_out_of_warn {s : String} {cs : List Char}
    (hd : s.data = '\n' :: '⚠' :: cs) : isWarnEv (.out s) = true := by
  simp only [isWarnEv]
  rw [hd]
  simp

theorem isWarnEv_enumLine (i : Nat) (name : String) :
    isWarnEv (.out (enumLine i name)) = false := by
  obtain ⟨c, cs, hd, hc⟩ := repr_data_shape i
  have e1 := append_head hd " - "
  have e2 := append_head e1 name
  exact isWarnEv_out_of_head e2 hc

/-- A list of events all of which are console prints. -/
def outsOnly (evs : List Ev) : Prop := ∀ e ∈ evs, ∃ s, e = Ev.out s

theorem outsOnly_filter_log {evs : List Ev} (h : outsOnly evs) :
    evs.filter isLogEv = [] := by
  rw [List.filter_eq_nil_iff]
  intro e he
  obtain ⟨s, rfl⟩ := h e he
  simp [isLogEv]

theorem outsOnly_filter_spawn {evs : List Ev} (h : outsOnly evs) :
    evs.filter isSpawnEv = [] := by
  rw [List.filter_eq_nil_iff]
  intro e he
  obtain ⟨s, rfl⟩ := h e he
  simp [isSpawnEv]

theorem outsOnly_map_out (l : List String) : outsOnly (l.map Ev.out) := by
  intro e he
  obtain ⟨s, _, rfl⟩ := List.mem_map.mp he
  exact ⟨s, rfl⟩

/-- Membership in a topic-render line list, unpacked. -/
theorem mem_topicRenderLines {subs : List String} {s : String}
    (hs : s ∈ topicRenderLines subs) :
    s = "\n📚 Temas Disponibles" ∨ s = banner40 ∨
    (∃ ic, ic ∈ subs.enum ∧ enumLine (ic.fst + 1) ic.snd = s) ∨
    s = "0 - Volver al menú principal" ∨ s = "\nSeleccione un tema: " := by
  simp only [topicRenderLines, List.mem_append, List.mem_cons, List.mem_map,
    List.not_mem_nil, or_false] at hs
  rcases hs with ((rfl | rfl) | ⟨ic, hic, heq⟩) | (rfl | rfl | rfl)
  · exact Or.inl rfl
  · exact Or.inr (Or.inl rfl)
  · exact Or.inr (Or.inr (Or.inl ⟨ic, hic, heq⟩))
  · exact Or.inr (Or.inr (Or.inr (Or.inl rfl)))
  · exact Or.inr (Or.inl rfl)
  · exact Or.inr (Or.inr (Or.inr (Or.inr rfl)))

/-- Membership in a script-render line list, unpacked. -/
theorem mem_scriptRenderLines {scripts : List String} {s : String}
    (hs : s ∈ scriptRenderLines scripts) :
    s = "\n📝 Scripts Disponibles" ∨ s = banner40 ∨
    (∃ ic, ic ∈ scripts.enum ∧ enumLine (ic.fst + 1) ic.snd = s) ∨
    s = "0 - Volver al menú de temas" ∨ s = "\nSeleccione un script: " := by
  simp only [scriptRenderLines, List.mem_append, List.mem_cons, List.mem_map,
    List.not_mem_nil, or_false] at hs
  rcases hs with ((rfl | rfl) | ⟨ic, hic, heq⟩) | (rfl | rfl | rfl)
  · exact Or.inl rfl
  · exact Or.inr (Or.inl rfl)
  · exact Or.inr (Or.inr (Or.inl ⟨ic, hic, heq⟩))
  · exact Or.inr (Or.inr (Or.inr (Or.inl rfl)))
  · exact Or.inr (Or.inl rfl)
  · exact Or.inr (Or.inr (Or.inr (Or.inr rfl)))

theorem logFree_mainRender : mainRenderEvs.filter isLogEv = [] :=
  outsOnly_filter_log (outsOnly_map_out _)

theorem logFree_topicRender (subs : List String) :
    (topicRenderEvs subs).filter isLogEv = [] :=
  outsOnly_filter_log (outsOnly_map_out _)

theorem logFree_scriptRender (scripts : List String) :
    (scriptRenderEvs scripts).filter isLogEv = [] :=
  outsOnly_filter_log (outsOnly_map_out _)

theorem spawnFree_topicRender (subs : List String) :
    (topicRenderEvs subs).filter isSpawnEv = [] :=
  outsOnly_filter_spawn (outsOnly_map_out _)

theorem spawnFree_scriptRender (scripts : List String) :
    (scriptRenderEvs scripts).filter isSpawnEv = [] :=
  outsOnly_filter_spawn (outsOnly_map_out _)

theorem warnFree_topicRender (subs : List String) :
    (topicRenderEvs subs).filter isWarnEv = [] := by
  rw [List.filter_eq_nil_iff]
  intro e he
  obtain ⟨s, hs, rfl⟩ := List.mem_map.mp he
  rcases mem_topicRenderLines hs with rfl | rfl | ⟨ic, hic, heq⟩ | rfl | rfl
  · decide
  · decide
  · rw [← heq]; simp [isWarnEv_enumLine]
  · decide
  · decide

theorem warnFree_scriptRender (scripts : List String) :
    (scriptRenderEvs scripts).filter isWarnEv = [] := by
  rw [List.filter_eq_nil_iff]
  intro e he
  obtain ⟨s, hs, rfl⟩ := List.mem_map.mp he
  rcases mem_scriptRenderLines hs with rfl | rfl | ⟨ic, hic, heq⟩ | rfl | rfl
  · decide
  · decide
  · rw [← heq]; simp [isWarnEv_enumLine]
  · decide
  · decide

/-- Appending the bytes of another string to a string that starts with the
console warning marker keeps the marker at the front. -/
theorem data_warn_marker (p e : String) (cs : List Char)
    (hp : p.data = '\n' :: '⚠' :: cs) :
    (p ++ e).data = '\n' :: '⚠' :: (cs ++ e.data) := by
  rw [String.data_append, hp]
  rfl

/-! ### Claim theorems -/

/-- **C7** — `obtener_subcarpetas` returns exactly the names (not full
paths) of the immediate child directories, `obtener_scripts` exactly the
names of the immediate child files ending in `".py"` (in enumeration
order), and for a path that cannot be listed both propagate the filesystem
error unchanged, with no handling of their own. -/
theorem C7_listers (env : Env) (ruta : String) :
    (∀ entries, env.scandir ruta = .ok entries →
      obtener_subcarpetas env ruta =
        .ok ((entries.filter (fun f => f.isDir)).map (fun f => f.name)) ∧
      obtener_scripts env ruta =
        .ok ((entries.filter (fun f => f.isFile && strEndsWith f.name ".py")).map
          (fun f => f.name)) ∧
      (∀ s, s ∈ (entries.filter (fun f => f.isDir)).map (fun f => f.name) ↔
        ∃ f, f ∈ entries ∧ f.isDir = true ∧ f.name = s) ∧
      (∀ s, s ∈ (entries.filter (fun f => f.isFile && strEndsWith f.name ".py")).map
          (fun f => f.name) ↔
        ∃ f, f ∈ entries ∧ f.isFile = true ∧ strEndsWith f.name ".py" = true ∧ f.name = s)) ∧
    (∀ e, env.scandir ruta = .error e →
      obtener_subcarpetas env ruta = .error e ∧ obtener_scripts env ruta = .error e) := by
  constructor
  · intro entries h
    refine ⟨by unfold obtener_subcarpetas; rw [h], by unfold obtener_scripts; rw [h], ?_, ?_⟩
    · intro s
      simp only [List.mem_map, List.mem_filter]
      constructor
      · rintro ⟨f, ⟨hf, hd⟩, rfl⟩; exact ⟨f, hf, hd, rfl⟩
      · rintro ⟨f, hf, hd, rfl⟩; exact ⟨f, ⟨hf, hd⟩, rfl⟩
    · intro s
      simp only [List.mem_map, List.mem_filter, Bool.and_eq_true]
      constructor
      · rintro ⟨f, ⟨hf, hd1, hd2⟩, rfl⟩; exact ⟨f, hf, hd1, hd2, rfl⟩
      · rintro ⟨f, hf, hd1, hd2, rfl⟩; exact ⟨f, ⟨hf, hd1, hd2⟩, rfl⟩
  · intro e h
    exact ⟨by unfold obtener_subcarpetas; rw [h], by unfold obtener_scripts; rw [h]⟩

/-- Witness for C7 at a concrete world: the demo topic folder lists its
one subdirectory and exactly its four `.py` files (not `notes.txt`), and
a missing path propagates the error. -/
theorem C7_listers_witness :
    obtener_subcarpetas envDemo temaPath = .ok ["sub"] ∧
    obtener_scripts envDemo temaPath = .ok ["hello.py", "empty.py", "crlf.py", "bad.py"] ∧
    obtener_subcarpetas envDemo "missing" =
      .error "FileNotFoundError: [Errno 2] No such file or directory" := by
  refine ⟨((C7_listers envDemo temaPath).1 _ rfl).1, ((C7_listers envDemo temaPath).1 _ rfl).2.1,
    ((C7_listers envDemo "missing").2 _ rfl).1⟩

/-- **C6** — `ejecutar_codigo` spawns `cmd /k` (window kept open) on the
Windows family and `xterm -hold` (window kept open) on Unix-like families;
a failing spawn is caught and turned into one ERROR log record and one
console warning, with no spawn event; the function is total (the
`try`/`except Exception` lets no exception propagate). -/
theorem C6_launcher (env : Env) (ruta : String) :
    (env.osName = "nt" → spawnCmd env ruta = ["cmd", "/k", "python", ruta]) ∧
    (env.osName ≠ "nt" → spawnCmd env ruta = ["xterm", "-hold", "-e", "python3", ruta]) ∧
    (env.popenErr (spawnCmd env ruta) = none →
      ejecutar_codigo env ruta =
        [.spawn (spawnCmd env ruta), .log .info ("Script ejecutado: " ++ ruta)]) ∧
    (∀ e, env.popenErr (spawnCmd env ruta) = some e →
      ejecutar_codigo env ruta =
        [.log .error ("Error al ejecutar " ++ ruta ++ ": " ++ e),
         .out ("\n⚠️ Error al ejecutar: " ++ e)] ∧
      (ejecutar_codigo env ruta).filter isSpawnEv = [] ∧
      warnCount (ejecutar_codigo env ruta) = 1) := by
  refine ⟨fun h => by unfold spawnCmd; rw [if_pos h],
          fun h => by unfold spawnCmd; rw [if_neg h], ?_, ?_⟩
  · intro h
    unfold ejecutar_codigo
    rw [h]
  · intro e h
    have heq : ejecutar_codigo env ruta =
        [.log .error ("Error al ejecutar " ++ ruta ++ ": " ++ e),
         .out ("\n⚠️ Error al ejecutar: " ++ e)] := by
      unfold ejecutar_codigo
      rw [h]
    have hwarn : isWarnEv (.out ("\n⚠️ Error al ejecutar: " ++ e)) = true :=
      isWarnEv_out_of_warn (data_warn_marker _ _ _ rfl)
    refine ⟨heq, ?_, ?_⟩
    · rw [heq]
      simp [isSpawnEv]
    · rw [warnCount, heq]
      simp [List.filter, hwarn, isWarnEv]

/-- Witness for C6 at concrete worlds: the Unix branch spawn on a healthy
world, and the caught failure on a Windows-family world whose spawn call
always raises. -/
theorem C6_launcher_witness :
    spawnCmd envBroken "x.py" = ["cmd", "/k", "python", "x.py"] ∧
    spawnCmd envDemo "x.py" = ["xterm", "-hold", "-e", "python3", "x.py"] ∧
    ejecutar_codigo envDemo "x.py" =
      [.spawn ["xterm", "-hold", "-e", "python3", "x.py"],
       .log .info "Script ejecutado: x.py"] ∧
    ejecutar_codigo envBroken "x.py" =
      [.log .error ("Error al ejecutar x.py: " ++
         "[WinError 2] The system cannot find the file specified"),
       .out ("\n⚠️ Error al ejecutar: " ++
         "[WinError 2] The system cannot find the file specified")] := by
  refine ⟨(C6_launcher envBroken "x.py").1 rfl, (C6_launcher envDemo "x.py").2.1 (by decide),
    (C6_launcher envDemo "x.py").2.2.1 rfl,
    ((C6_launcher envBroken "x.py").2.2.2 _ rfl).1⟩

/-- **C4** — when the read of a script fails (missing file, permission
error, or a decode failure), `mostrar_codigo` returns `None`, records
exactly one log entry, that entry is ERROR-level and contains the
requested path, and exactly one console warning is printed.  The function
is total (`try`/`except Exception`), so no exception reaches the caller. -/
theorem C4_view_failure (env : Env) (ruta : String)
    (hfail : (∃ e, env.readBytes (env.abspath ruta) = .error e) ∨
             (∃ bs, env.readBytes (env.abspath ruta) = .ok bs ∧ pyReadText bs = none)) :
    (mostrar_codigo env ruta).fst = none ∧
    logCount (mostrar_codigo env ruta).snd = 1 ∧
    (∀ lv msg, Ev.log lv msg ∈ (mostrar_codigo env ruta).snd →
      lv = Level.error ∧ ∃ pre post, msg = pre ++ ruta ++ post) ∧
    warnCount (mostrar_codigo env ruta).snd = 1 := by
  have hsh : ∃ tail, mostrar_codigo env ruta =
      (none, [.log .error ("Error al leer archivo " ++ ruta ++ ": " ++ tail),
              .out ("\n⚠️ Error: " ++ tail)]) := by
    rcases hfail with ⟨e, he⟩ | ⟨bs, hbs, hdec⟩
    · exact ⟨e, by simp only [mostrar_codigo]; rw [he]⟩
    · exact ⟨utf8ErrorMsg, by simp only [mostrar_codigo, hbs, hdec]⟩
  obtain ⟨tail, heq⟩ := hsh
  have hwarn : isWarnEv (.out ("\n⚠️ Error: " ++ tail)) = true :=
    isWarnEv_out_of_warn (data_warn_marker _ _ _ rfl)
  refine ⟨by rw [heq], by rw [heq]; simp [logCount, List.filter, isLogEv], ?_, ?_⟩
  · intro lv msg hmem
    rw [heq] at hmem
    simp only [List.mem_cons, List.not_mem_nil, or_false] at hmem
    rcases hmem with hmem | hmem
    · rw [Ev.log.injEq] at hmem
      refine ⟨hmem.1, "Error al leer archivo ", ": " ++ tail, ?_⟩
      rw [hmem.2]
      exact (String.append_assoc _ _ _).symm ▸ (String.append_assoc _ _ _)
    · exact absurd hmem (by simp)
  · rw [warnCount, heq]
    simp [List.filter, isWarnEv, hwarn]

/-- No carriage return in the decoded characters means universal-newline
translation is the identity. -/
theorem universalNewlines_no_cr : ∀ (cs : List Char), '\r' ∉ cs → universalNewlines cs = cs := by
  intro cs
  induction cs with
  | nil => intro _; rfl
  | cons c rest ih =>
    intro h
    have hc : c ≠ '\r' := fun e => h (by rw [e]; exact List.mem_cons_self _ _)
    have hr : '\r' ∉ rest := fun m => h (List.mem_cons_of_mem _ m)
    have ih2 := ih hr
    rw [universalNewlines.eq_def]
    split <;> simp_all

/-- Modelled from the spec: the text claim C3 expects `view` to return —
the file's on-disk bytes decoded as UTF-8 with line terminators exactly as
stored on disk (no newline translation).  Kept separate from `pyReadText`
(which is translated from the source) so the two can be compared. -/
def specViewText (bs : List Nat) : Option String :=
  (decodeUtf8 bs).map (fun cs => cs.asString)

/-- **C3 (amended)** — for an existing readable file whose bytes decode as
UTF-8, `mostrar_codigo` returns the decoded text *after universal-newline
translation* (`"\r\n"` and lone `"\r"` become `"\n"`); the returned text
equals the decoded on-disk bytes exactly when they contain no carriage
return. -/
theorem C3_view_success (env : Env) (ruta : String) (bytes : List Nat) (chars : List Char)
    (hrb : env.readBytes (env.abspath ruta) = .ok bytes)
    (hdec : decodeUtf8 bytes = some chars) :
    (mostrar_codigo env ruta).fst = some ((universalNewlines chars).asString) ∧
    ('\r' ∉ chars → (mostrar_codigo env ruta).fst = some (chars.asString)) := by
  have hv : pyReadText bytes = some ((universalNewlines chars).asString) := by
    simp [pyReadText, hdec]
  have h1 : (mostrar_codigo env ruta).fst = some ((universalNewlines chars).asString) := by
    simp only [mostrar_codigo, hrb, hv]
  exact ⟨h1, fun hcr => by rw [h1, universalNewlines_no_cr chars hcr]⟩

/-- Witness for C3 (amended): `hello.py` (no carriage returns) is returned
exactly as its decoded bytes. -/
theorem C3_view_success_witness :
    (mostrar_codigo envDemo (pathJoin temaPath "hello.py")).fst =
      some (['h', 'i', '\n'].asString) :=
  (C3_view_success envDemo (pathJoin temaPath "hello.py") helloBytes ['h', 'i', '\n']
    rfl (by decide)).2 (by decide)

/-- Counterexample to C3 as stated: `crlf.py` holds the bytes `"a\r\nb"`;
the view returns `"a\nb"`, not the on-disk contents decoded as UTF-8 with
line terminators as stored (`"a\r\nb"`). -/
theorem C3_crlf_cex :
    envDemo.readBytes (envDemo.abspath (pathJoin temaPath "crlf.py")) = .ok crlfBytes ∧
    specViewText crlfBytes = some "a\r\nb" ∧
    (mostrar_codigo envDemo (pathJoin temaPath "crlf.py")).fst = some "a\nb" ∧
    (mostrar_codigo envDemo (pathJoin temaPath "crlf.py")).fst ≠ specViewText crlfBytes := by
  refine ⟨rfl, by decide, by decide, by decide⟩

/-! ### Step unfolding lemmas -/

theorem stepTopic_of_ok {env : Env} {ruta : String} {subs : List String}
    (inputs : List String) (h : obtener_subcarpetas env ruta = .ok subs) :
    stepTopic env ruta inputs = stepTopicOk ruta subs inputs := by
  unfold stepTopic; rw [h]

theorem stepTopic_of_err {env : Env} {ruta e : String}
    (inputs : List String) (h : obtener_subcarpetas env ruta = .error e) :
    stepTopic env ruta inputs = .crash e [] inputs := by
  unfold stepTopic; rw [h]

theorem stepScript_of_ok {env : Env} {tema : String} {scripts : List String}
    (unidad : String) (inputs : List String) (h : obtener_scripts env tema = .ok scripts) :
    stepScript env tema unidad inputs = stepScriptOk env tema unidad scripts inputs := by
  unfold stepScript; rw [h]

theorem stepScript_of_err {env : Env} {tema e : String} (unidad : String)
    (inputs : List String) (h : obtener_scripts env tema = .error e) :
    stepScript env tema unidad inputs = .crash e [] inputs := by
  unfold stepScript; rw [h]

/-- A `"0"` selection at the topic menu goes back to the main menu. -/
theorem stepTopicOk_zero {line : String} (ruta : String) (subs : List String)
    (rest : List String) (hz : pyStrip line = "0") :
    stepTopicOk ruta subs (line :: rest) = .next .main (topicRenderEvs subs) rest := by
  simp only [stepTopicOk]
  rw [if_pos hz]

/-- A non-numeric, non-`"0"` selection at the topic menu stays put with the
"enter a valid number" warning. -/
theorem stepTopicOk_nonnum {line : String} (ruta : String) (subs : List String)
    (rest : List String) (h0 : pyStrip line ≠ "0")
    (hn : pyInt? (pyStrip line) = none) :
    stepTopicOk ruta subs (line :: rest) =
      .next (.topic ruta)
        (topicRenderEvs subs ++ [.out "\n⚠️ Por favor, ingrese un número válido"]) rest := by
  simp only [stepTopicOk]
  rw [if_neg h0, hn]

/-- An out-of-range integer selection at the topic menu stays put with the
"invalid topic" warning. -/
theorem stepTopicOk_outrange {line : String} {n : Int} (ruta : String) (subs : List String)
    (rest : List String) (h0 : pyStrip line ≠ "0")
    (hn : pyInt? (pyStrip line) = some n)
    (hr : ¬(0 ≤ n - 1 ∧ n - 1 < (subs.length : Int))) :
    stepTopicOk ruta subs (line :: rest) =
      .next (.topic ruta) (topicRenderEvs subs ++ [.out "\n⚠️ Tema no válido"]) rest := by
  simp only [stepTopicOk]
  rw [if_neg h0, hn]
  simp only [if_neg hr]

/-- An in-range integer selection at the topic menu descends into the
script menu of the `n`-th listed subfolder. -/
theorem stepTopicOk_inrange {line : String} {n : Int} (ruta : String) (subs : List String)
    (rest : List String) (h0 : pyStrip line ≠ "0")
    (hn : pyInt? (pyStrip line) = some n)
    (hr : 0 ≤ n - 1 ∧ n - 1 < (subs.length : Int)) :
    stepTopicOk ruta subs (line :: rest) =
      .next (.script (pathJoin ruta (subs.getD (n - 1).toNat "")) ruta)
        (topicRenderEvs subs) rest := by
  simp only [stepTopicOk]
  rw [if_neg h0, hn]
  simp only [if_pos hr]

/-- A `"0"` selection at the script menu goes back to the topic menu. -/
theorem stepScriptOk_zero {line : String} (env : Env) (tema unidad : String)
    (scripts : List String) (rest : List String) (hz : pyStrip line = "0") :
    stepScriptOk env tema unidad scripts (line :: rest) =
      .next (.topic unidad) (scriptRenderEvs scripts) rest := by
  simp only [stepScriptOk]
  rw [if_pos hz]

/-- A non-numeric, non-`"0"` selection at the script menu stays put with
the "enter a valid number" warning. -/
theorem stepScriptOk_nonnum {line : String} (env : Env) (tema unidad : String)
    (scripts : List String) (rest : List String) (h0 : pyStrip line ≠ "0")
    (hn : pyInt? (pyStrip line) = none) :
    stepScriptOk env tema unidad scripts (line :: rest) =
      .next (.script tema unidad)
        (scriptRenderEvs scripts ++ [.out "\n⚠️ Por favor, ingrese un número válido"]) rest := by
  simp only [stepScriptOk]
  rw [if_neg h0, hn]

/-- An out-of-range integer selection at the script menu stays put with
the "invalid script" warning. -/
theorem stepScriptOk_outrange {line : String} {n : Int} (env : Env) (tema unidad : String)
    (scripts : List String) (rest : List String) (h0 : pyStrip line ≠ "0")
    (hn : pyInt? (pyStrip line) = some n)
    (hr : ¬(0 ≤ n - 1 ∧ n - 1 < (scripts.length : Int))) :
    stepScriptOk env tema unidad scripts (line :: rest) =
      .next (.script tema unidad) (scriptRenderEvs scripts ++ [.out "\n⚠️ Script no válido"]) rest := by
  simp only [stepScriptOk]
  rw [if_neg h0, hn]
  simp only [if_neg hr]

/-- On a successful view, `mostrar_codigo` prints banner, header, banner
and the text, and logs one INFO record — nothing else. -/
theorem view_success_evs (env : Env) (ruta s : String) (vevs : List Ev)
    (h : mostrar_codigo env ruta = (some s, vevs)) :
    vevs = [.out ("\n" ++ banner50), .out ("Código de " ++ basename ruta ++ ":"),
            .out (banner50 ++ "\n"), .out s,
            .log .info ("Archivo visualizado: " ++ ruta)] := by
  cases hrb : env.readBytes (env.abspath ruta) with
  | error e =>
    simp only [mostrar_codigo, hrb] at h
    exact absurd h (by simp)
  | ok bytes =>
    cases hrt : pyReadText bytes with
    | none =>
      simp only [mostrar_codigo, hrb, hrt] at h
      exact absurd h (by simp)
    | some codigo =>
      simp only [mostrar_codigo, hrb, hrt, Prod.mk.injEq, Option.some.injEq] at h
      rw [← h.2, h.1]

/-- An in-range script selection whose view returned a truthy (non-empty)
text: the run prompt is read, the launcher runs exactly when the reply
uppercases to `"S"`, and one more line is consumed before re-entering the
script state. -/
theorem stepScriptOk_truthy {line conf ack : String} {n : Int} {s : String} {vevs : List Ev}
    (env : Env) (tema unidad : String) (scripts : List String) (rest : List String)
    (h0 : pyStrip line ≠ "0") (hn : pyInt? (pyStrip line) = some n)
    (hr : 0 ≤ n - 1 ∧ n - 1 < (scripts.length : Int))
    (hview : mostrar_codigo env (pathJoin tema (scripts.getD (n - 1).toNat "")) = (some s, vevs))
    (hs : s ≠ "") :
    stepScriptOk env tema unidad scripts (line :: conf :: ack :: rest) =
      .next (.script tema unidad)
        (scriptRenderEvs scripts ++ vevs ++
         [.out "\n¿Desea ejecutar el script? (S/N): "] ++
         (if pyUpper conf = "S" then
            ejecutar_codigo env (pathJoin tema (scripts.getD (n - 1).toNat "")) else []) ++
         [.out "\nPresione Enter para continuar..."]) rest := by
  simp only [stepScriptOk]
  rw [if_neg h0, hn]
  simp only [if_pos hr, hview]
  have ht : pyTruthy (some s, vevs).fst = true := by
    simp [pyTruthy, hs]
  rw [ht]
  simp

/-- An in-range script selection whose view returned a falsy value (`None`
or the empty string): the run prompt is skipped and only the
acknowledgment line is consumed before re-entering the script state. -/
theorem stepScriptOk_falsy {line ack : String} {n : Int} {res : Option String} {vevs : List Ev}
    (env : Env) (tema unidad : String) (scripts : List String) (rest : List String)
    (h0 : pyStrip line ≠ "0") (hn : pyInt? (pyStrip line) = some n)
    (hr : 0 ≤ n - 1 ∧ n - 1 < (scripts.length : Int))
    (hview : mostrar_codigo env (pathJoin tema (scripts.getD (n - 1).toNat "")) = (res, vevs))
    (hres : pyTruthy res = false) :
    stepScriptOk env tema unidad scripts (line :: ack :: rest) =
      .next (.script tema unidad)
        (scriptRenderEvs scripts ++ vevs ++
         [.out "\nPresione Enter para continuar..."]) rest := by
  simp only [stepScriptOk]
  rw [if_neg h0, hn]
  simp only [if_pos hr, hview]
  rw [show pyTruthy (res, vevs).fst = false from hres]
  simp

/-- No numbered listing line equals a string that starts with a newline
(its first character is a digit of the index). -/
theorem enumLine_ne_nl_start (i : Nat) (name t : String) {ds : List Char}
    (ht : t.data = '\n' :: ds) : enumLine i name ≠ t := by
  obtain ⟨c, cs, hd, hc⟩ := repr_data_shape i
  have e1 := append_head hd " - "
  have e2 := append_head e1 name
  exact ne_of_data_heads e2 ht hc

/-! ### Controller claims -/

/-- **C1 (amended)** — selecting a valid catalog key at the main menu
always transitions to the topic state rooted at the base path joined with
that entry's folder name, and the selection itself raises nothing; but if
that unit directory cannot be listed, the very next render of the topic
state raises the filesystem error uncaught, terminating the process (so
the "never raises, even when the unit directory does not exist" part of
the original claim fails; see the counterexample). -/
theorem C1_main_select (env : Env) (line : String) (rest : List String) (nombre : String)
    (hlook : List.lookup (pyStrip line) unidades = some nombre) :
    step env .main (line :: rest) =
      .next (.topic (pathJoin env.rutaBase nombre)) mainRenderEvs rest ∧
    (∀ e, env.scandir (pathJoin env.rutaBase nombre) = .error e →
      step env (.topic (pathJoin env.rutaBase nombre)) rest = .crash e [] rest) := by
  have h0 : pyStrip line ≠ "0" := by
    intro hz
    rw [hz] at hlook
    have hn : List.lookup "0" unidades = (none : Option String) := rfl
    rw [hn] at hlook
    exact Option.noConfusion hlook
  constructor
  · show stepMain env (line :: rest) = _
    simp only [stepMain]
    rw [if_neg h0, hlook]
  · intro e he
    show stepTopic env _ rest = _
    refine stepTopic_of_err rest ?_
    unfold obtener_subcarpetas
    rw [he]

/-- Witness for C1 (amended): selecting `"1"` transitions to the topic
state for `Unidad 1`, and since that directory does not exist in
`envBroken`, the next render crashes with the propagated error. -/
theorem C1_main_select_witness :
    step envBroken .main ["1"] =
      .next (.topic (pathJoin "base" "Unidad 1 - Fundamentos POO")) mainRenderEvs [] ∧
    step envBroken (.topic (pathJoin "base" "Unidad 1 - Fundamentos POO")) [] =
      .crash "FileNotFoundError: [Errno 2] No such file or directory" [] [] := by
  have h := C1_main_select envBroken "1" [] "Unidad 1 - Fundamentos POO" rfl
  exact ⟨h.1, h.2 _ rfl⟩

/-- Counterexample to C1 as stated: in a world where the unit directory
does not exist, the session `["1", "9"]` reaches the topic state and then
dies with an uncaught `FileNotFoundError` — an exception is raised and the
process terminates without the user selecting the exit option. -/
theorem C1_missing_unit_cex :
    step envBroken .main ["1", "9"] =
      .next (.topic "base/Unidad 1 - Fundamentos POO") mainRenderEvs ["9"] ∧
    step envBroken (.topic "base/Unidad 1 - Fundamentos POO") ["9"] =
      .crash "FileNotFoundError: [Errno 2] No such file or directory" [] ["9"] :=
  ⟨rfl, rfl⟩

/-- **C8** — selecting `"0"` at the topic menu returns control to the main
menu, and this back-navigation writes no log record and spawns nothing
(the embedding has no filesystem-writing effect at all, so the filesystem
is trivially unmodified). -/
theorem C8_topic_back (env : Env) (ruta line : String) (rest : List String)
    (subs : List String) (hsubs : obtener_subcarpetas env ruta = .ok subs)
    (hz : pyStrip line = "0") :
    step env (.topic ruta) (line :: rest) = .next .main (topicRenderEvs subs) rest ∧
    logCount (topicRenderEvs subs) = 0 ∧
    (topicRenderEvs subs).filter isSpawnEv = [] := by
  refine ⟨?_, ?_, spawnFree_topicRender subs⟩
  · show stepTopic env ruta (line :: rest) = _
    rw [stepTopic_of_ok _ hsubs, stepTopicOk_zero _ _ _ hz]
  · rw [logCount, logFree_topicRender]
    rfl

/-- Witness for C8: backing out of the demo unit's topic menu. -/
theorem C8_topic_back_witness :
    step envDemo (.topic unidad1Path) ["0", "x"] =
      .next .main (topicRenderEvs ["ClassesIntro"]) ["x"] ∧
    logCount (topicRenderEvs ["ClassesIntro"]) = 0 := by
  have h := C8_topic_back envDemo unidad1Path "0" ["x"] ["ClassesIntro"] rfl rfl
  exact ⟨h.1, h.2.1⟩

/-- **C5** — at the topic or script menu, every input that is non-numeric
(and not `"0"`) or an out-of-range integer leaves the controller in the
same state with the same path argument, appending exactly one console
warning line to the re-render (the render lines themselves contain no
warning, so the whole step prints exactly one warning). -/
theorem C5_invalid_input (env : Env) (line : String) (rest : List String)
    (h0 : pyStrip line ≠ "0") :
    (∀ ruta subs, obtener_subcarpetas env ruta = .ok subs →
      pyInt? (pyStrip line) = none →
      step env (.topic ruta) (line :: rest) =
        .next (.topic ruta)
          (topicRenderEvs subs ++ [.out "\n⚠️ Por favor, ingrese un número válido"]) rest) ∧
    (∀ ruta subs n, obtener_subcarpetas env ruta = .ok subs →
      pyInt? (pyStrip line) = some n → ¬(0 ≤ n - 1 ∧ n - 1 < (subs.length : Int)) →
      step env (.topic ruta) (line :: rest) =
        .next (.topic ruta) (topicRenderEvs subs ++ [.out "\n⚠️ Tema no válido"]) rest) ∧
    (∀ tema unidad scripts, obtener_scripts env tema = .ok scripts →
      pyInt? (pyStrip line) = none →
      step env (.script tema unidad) (line :: rest) =
        .next (.script tema unidad)
          (scriptRenderEvs scripts ++ [.out "\n⚠️ Por favor, ingrese un número válido"]) rest) ∧
    (∀ tema unidad scripts n, obtener_scripts env tema = .ok scripts →
      pyInt? (pyStrip line) = some n → ¬(0 ≤ n - 1 ∧ n - 1 < (scripts.length : Int)) →
      step env (.script tema unidad) (line :: rest) =
        .next (.script tema unidad)
          (scriptRenderEvs scripts ++ [.out "\n⚠️ Script no válido"]) rest) ∧
    (∀ l w, isWarnEv (.out w) = true →
      warnCount (topicRenderEvs l ++ [.out w]) = 1 ∧
      warnCount (scriptRenderEvs l ++ [.out w]) = 1) := by
  refine ⟨?_, ?_, ?_, ?_, ?_⟩
  · intro ruta subs hsubs hn
    show stepTopic env ruta (line :: rest) = _
    rw [stepTopic_of_ok _ hsubs, stepTopicOk_nonnum _ _ _ h0 hn]
  · intro ruta subs n hsubs hn hr
    show stepTopic env ruta (line :: rest) = _
    rw [stepTopic_of_ok _ hsubs, stepTopicOk_outrange _ _ _ h0 hn hr]
  · intro tema unidad scripts hs hn
    show stepScript env tema unidad (line :: rest) = _
    rw [stepScript_of_ok _ _ hs, stepScriptOk_nonnum _ _ _ _ _ h0 hn]
  · intro tema unidad scripts n hs hn hr
    show stepScript env tema unidad (line :: rest) = _
    rw [stepScript_of_ok _ _ hs, stepScriptOk_outrange _ _ _ _ _ h0 hn hr]
  · intro l w hw
    constructor
    · rw [warnCount, List.filter_append, warnFree_topicRender]
      simp [List.filter, hw]
    · rw [warnCount, List.filter_append, warnFree_scriptRender]
      simp [List.filter, hw]

/-- Witness for C5: a non-numeric input at the topic menu and an
out-of-range index at the script menu of the demo world. -/
theorem C5_invalid_input_witness :
    step envDemo (.topic unidad1Path) ["abc"] =
      .next (.topic unidad1Path)
        (topicRenderEvs ["ClassesIntro"] ++
         [.out "\n⚠️ Por favor, ingrese un número válido"]) [] ∧
    step envDemo (.script temaPath unidad1Path) ["7"] =
      .next (.script temaPath unidad1Path)
        (scriptRenderEvs ["hello.py", "empty.py", "crlf.py", "bad.py"] ++
         [.out "\n⚠️ Script no válido"]) [] ∧
    warnCount (topicRenderEvs ["ClassesIntro"] ++
      [.out "\n⚠️ Por favor, ingrese un número válido"]) = 1 := by
  have ha := C5_invalid_input envDemo "abc" [] (by decide)
  have h7 := C5_invalid_input envDemo "7" [] (by decide)
  exact ⟨ha.1 _ _ rfl rfl, h7.2.2.2.1 _ _ _ 7 rfl rfl (by decide),
    (ha.2.2.2.2 ["ClassesIntro"] _ (by decide)).1⟩

/-- **C10** — invalid inputs at the topic and script menus write no log
record of any level (only a console warning); of the three menus only the
main menu logs — one WARNING record — on an invalid key. -/
theorem C10_log_frame (env : Env) (line : String) (rest : List String)
    (h0 : pyStrip line ≠ "0") :
    (∀ ruta subs, obtener_subcarpetas env ruta = .ok subs →
      pyInt? (pyStrip line) = none →
      logCount (step env (.topic ruta) (line :: rest)).events = 0) ∧
    (∀ ruta subs n, obtener_subcarpetas env ruta = .ok subs →
      pyInt? (pyStrip line) = some n → ¬(0 ≤ n - 1 ∧ n - 1 < (subs.length : Int)) →
      logCount (step env (.topic ruta) (line :: rest)).events = 0) ∧
    (∀ tema unidad scripts, obtener_scripts env tema = .ok scripts →
      pyInt? (pyStrip line) = none →
      logCount (step env (.script tema unidad) (line :: rest)).events = 0) ∧
    (∀ tema unidad scripts n, obtener_scripts env tema = .ok scripts →
      pyInt? (pyStrip line) = some n → ¬(0 ≤ n - 1 ∧ n - 1 < (scripts.length : Int)) →
      logCount (step env (.script tema unidad) (line :: rest)).events = 0) ∧
    (List.lookup (pyStrip line) unidades = none →
      step env .main (line :: rest) =
        .next .main
          (mainRenderEvs ++
           [.out "\n⚠️ Opción no válida",
            .log .warning ("Opción inválida seleccionada: " ++ pyStrip line)]) rest ∧
      logCount (step env .main (line :: rest)).events = 1 ∧
      (∀ lv msg, Ev.log lv msg ∈ (step env .main (line :: rest)).events →
        lv = Level.warning)) := by
  have hc := C5_invalid_input env line rest h0
  refine ⟨?_, ?_, ?_, ?_, ?_⟩
  · intro ruta subs hsubs hn
    rw [hc.1 _ _ hsubs hn, StepRes.events, logCount, List.filter_append, logFree_topicRender]
    simp [List.filter, isLogEv]
  · intro ruta subs n hsubs hn hr
    rw [hc.2.1 _ _ _ hsubs hn hr, StepRes.events, logCount, List.filter_append,
      logFree_topicRender]
    simp [List.filter, isLogEv]
  · intro tema unidad scripts hs hn
    rw [hc.2.2.1 _ _ _ hs hn, StepRes.events, logCount, List.filter_append,
      logFree_scriptRender]
    simp [List.filter, isLogEv]
  · intro tema unidad scripts n hs hn hr
    rw [hc.2.2.2.1 _ _ _ _ hs hn hr, StepRes.events, logCount, List.filter_append,
      logFree_scriptRender]
    simp [List.filter, isLogEv]
  · intro hlook
    have hstep : step env .main (line :: rest) =
        .next .main
          (mainRenderEvs ++
           [.out "\n⚠️ Opción no válida",
            .log .warning ("Opción inválida seleccionada: " ++ pyStrip line)]) rest := by
      show stepMain env (line :: rest) = _
      simp only [stepMain]
      rw [if_neg h0, hlook]
    refine ⟨hstep, ?_, ?_⟩
    · rw [hstep, StepRes.events, logCount, List.filter_append, logFree_mainRender]
      simp [List.filter, isLogEv]
    · intro lv msg hmem
      rw [hstep, StepRes.events] at hmem
      rcases List.mem_append.mp hmem with hmem | hmem
      · obtain ⟨s, hs⟩ := outsOnly_map_out _ _ hmem
        exact absurd hs (by simp)
      · simp only [List.mem_cons, List.not_mem_nil, or_false] at hmem
        rcases hmem with hmem | hmem
        · exact absurd hmem (by simp)
        · rw [Ev.log.injEq] at hmem
          exact hmem.1

/-- Witness for C10: a non-numeric topic input logs nothing; the invalid
main-menu key `"9"` logs exactly one record, a WARNING. -/
theorem C10_log_frame_witness :
    logCount (step envDemo (.topic unidad1Path) ["abc"]).events = 0 ∧
    logCount (step envDemo .main ["9"]).events = 1 := by
  have ha := C10_log_frame envDemo "abc" [] (by decide)
  have h9 := C10_log_frame envDemo "9" [] (by decide)
  exact ⟨ha.1 _ _ rfl rfl, (h9.2.2.2.2 rfl).2.1⟩

/-- **C2 (amended)** — after an in-range script selection whose view
returned *non-empty* text, the controller prompts for run confirmation and
calls the launcher exactly when the reply uppercases to `"S"` (the
affirmative token is the Spanish `S`, case-insensitively — not `Y`), and
always consumes one acknowledgment line before re-entering the same script
state.  (When the view returns the empty string the prompt is skipped
entirely; see C9.) -/
theorem C2_run_confirmation (env : Env) (tema unidad : String) (scripts : List String)
    (line conf ack : String) (rest : List String) (n : Int) (s : String) (vevs : List Ev)
    (hsc : obtener_scripts env tema = .ok scripts)
    (h0 : pyStrip line ≠ "0") (hn : pyInt? (pyStrip line) = some n)
    (hr : 0 ≤ n - 1 ∧ n - 1 < (scripts.length : Int))
    (hview : mostrar_codigo env (pathJoin tema (scripts.getD (n - 1).toNat "")) = (some s, vevs))
    (hne : s ≠ "") :
    step env (.script tema unidad) (line :: conf :: ack :: rest) =
      .next (.script tema unidad)
        (scriptRenderEvs scripts ++ vevs ++
         [.out "\n¿Desea ejecutar el script? (S/N): "] ++
         (if pyUpper conf = "S" then
            ejecutar_codigo env (pathJoin tema (scripts.getD (n - 1).toNat "")) else []) ++
         [.out "\nPresione Enter para continuar..."]) rest ∧
    (pyUpper conf ≠ "S" →
      (if pyUpper conf = "S" then
         ejecutar_codigo env (pathJoin tema (scripts.getD (n - 1).toNat "")) else []) = []) := by
  refine ⟨?_, fun h => if_neg h⟩
  show stepScript env tema unidad _ = _
  rw [stepScript_of_ok _ _ hsc,
    stepScriptOk_truthy env tema unidad scripts rest h0 hn hr hview hne]

/-- Witness for C2 (amended): replying `"s"` (case-insensitive `S`) to the
prompt for the non-empty `hello.py` launches the script. -/
theorem C2_run_confirmation_witness :
    step envDemo (.script temaPath unidad1Path) ["1", "s", ""] =
      .next (.script temaPath unidad1Path)
        (scriptRenderEvs ["hello.py", "empty.py", "crlf.py", "bad.py"] ++
         (mostrar_codigo envDemo (pathJoin temaPath "hello.py")).snd ++
         [.out "\n¿Desea ejecutar el script? (S/N): "] ++
         (if pyUpper "s" = "S" then
            ejecutar_codigo envDemo (pathJoin temaPath "hello.py") else []) ++
         [.out "\nPresione Enter para continuar..."]) [] :=
  (C2_run_confirmation envDemo temaPath unidad1Path
    ["hello.py", "empty.py", "crlf.py", "bad.py"] "1" "s" "" [] 1 "hi\n"
    (mostrar_codigo envDemo (pathJoin temaPath "hello.py")).snd
    rfl (by decide) rfl (by decide) rfl (by decide)).1

/-- Counterexample to C2 as stated: the view of `hello.py` returned the
non-empty text `"hi\n"`, the user replied `"Y"`, yet the launcher is not
called (no spawn event and only the view's single INFO log record), and
the controller re-enters the same script state — the affirmative token is
`"S"`, not a case-insensitive `"Y"`. -/
theorem C2_affirmative_cex :
    (mostrar_codigo envDemo (pathJoin temaPath "hello.py")).fst = some "hi\n" ∧
    pyUpper "Y" = "Y" ∧
    (step envDemo (.script temaPath unidad1Path) ["1", "Y", ""]).events.filter isSpawnEv = [] ∧
    logCount (step envDemo (.script temaPath unidad1Path) ["1", "Y", ""]).events = 1 ∧
    (step envDemo (.script temaPath unidad1Path) ["1", "Y", ""]).state =
      some (.script temaPath unidad1Path) :=
  ⟨rfl, rfl, rfl, rfl, rfl⟩

/-- **C9** — when the selected script exists, is readable and is empty,
the view succeeds and returns the empty string, yet the controller skips
the run-confirmation prompt (no prompt event occurs and nothing is
spawned), because line 178 branches on the truthiness of the returned
text rather than on success versus `None`. -/
theorem C9_empty_script (env : Env) (tema unidad : String) (scripts : List String)
    (line ack : String) (rest : List String) (n : Int) (vevs : List Ev)
    (hsc : obtener_scripts env tema = .ok scripts)
    (h0 : pyStrip line ≠ "0") (hn : pyInt? (pyStrip line) = some n)
    (hr : 0 ≤ n - 1 ∧ n - 1 < (scripts.length : Int))
    (hview : mostrar_codigo env (pathJoin tema (scripts.getD (n - 1).toNat "")) =
      (some "", vevs)) :
    step env (.script tema unidad) (line :: ack :: rest) =
      .next (.script tema unidad)
        (scriptRenderEvs scripts ++ vevs ++
         [.out "\nPresione Enter para continuar..."]) rest ∧
    Ev.out "\n¿Desea ejecutar el script? (S/N): " ∉
      (step env (.script tema unidad) (line :: ack :: rest)).events ∧
    (step env (.script tema unidad) (line :: ack :: rest)).events.filter isSpawnEv = [] := by
  have hstep : step env (.script tema unidad) (line :: ack :: rest) =
      .next (.script tema unidad)
        (scriptRenderEvs scripts ++ vevs ++
         [.out "\nPresione Enter para continuar..."]) rest := by
    show stepScript env tema unidad _ = _
    rw [stepScript_of_ok _ _ hsc,
      stepScriptOk_falsy env tema unidad scripts rest h0 hn hr hview (by simp [pyTruthy])]
  have hv := view_success_evs _ _ _ _ hview
  have hprompt : ("\n¿Desea ejecutar el script? (S/N): " : String).data =
      '\n' :: ("¿Desea ejecutar el script? (S/N): " : String).data := rfl
  refine ⟨hstep, ?_, ?_⟩
  · rw [hstep, StepRes.events]
    intro hmem
    rcases List.mem_append.mp hmem with hmem | hmem
    · rcases List.mem_append.mp hmem with hmem | hmem
      · obtain ⟨s', hs', heq⟩ := List.mem_map.mp hmem
        rw [Ev.out.injEq] at heq
        rw [heq] at hs'
        rcases mem_scriptRenderLines hs' with h1 | h1 | ⟨ic, hic, h1⟩ | h1 | h1
        · exact absurd h1 (by decide)
        · exact absurd h1 (by decide)
        · exact absurd h1 (enumLine_ne_nl_start _ _ _ hprompt)
        · exact absurd h1 (by decide)
        · exact absurd h1 (by decide)
      · rw [hv] at hmem
        have hhead : ("Código de " ++ basename
            (pathJoin tema (scripts.getD (n - 1).toNat "")) ++ ":").data =
            'C' :: ((("ódigo de " : String).data ++
              (basename (pathJoin tema (scripts.getD (n - 1).toNat ""))).data) ++
              (":" : String).data) := by
          have e1 := append_head
            (show ("Código de " : String).data = 'C' :: ("ódigo de " : String).data from rfl)
            (basename (pathJoin tema (scripts.getD (n - 1).toNat "")))
          exact append_head e1 ":"
        simp only [List.mem_cons, List.not_mem_nil, or_false] at hmem
        rcases hmem with h1 | h1 | h1 | h1 | h1
        · rw [Ev.out.injEq] at h1
          exact absurd h1.symm (by decide)
        · rw [Ev.out.injEq] at h1
          exact absurd h1.symm (ne_of_data_heads hhead hprompt (by decide))
        · rw [Ev.out.injEq] at h1
          exact absurd h1.symm (by decide)
        · rw [Ev.out.injEq] at h1
          exact absurd h1.symm (by decide)
        · exact absurd h1 (by simp)
    · simp only [List.mem_cons, List.not_mem_nil, or_false] at hmem
      rw [Ev.out.injEq] at hmem
      exact absurd hmem (by decide)
  · rw [hstep, StepRes.events, List.filter_append, List.filter_append,
      spawnFree_scriptRender, hv]
    simp [isSpawnEv]

/-- Witness for C9: selecting the empty `empty.py` in the demo world skips
the prompt and spawns nothing. -/
theorem C9_empty_script_witness :
    (mostrar_codigo envDemo (pathJoin temaPath "empty.py")).fst = some "" ∧
    step envDemo (.script temaPath unidad1Path) ["2", ""] =
      .next (.script temaPath unidad1Path)
        (scriptRenderEvs ["hello.py", "empty.py", "crlf.py", "bad.py"] ++
         (mostrar_codigo envDemo (pathJoin temaPath "empty.py")).snd ++
         [.out "\nPresione Enter para continuar..."]) [] ∧
    (step envDemo (.script temaPath unidad1Path) ["2", ""]).events.filter isSpawnEv = [] := by
  have h := C9_empty_script envDemo temaPath unidad1Path
    ["hello.py", "empty.py", "crlf.py", "bad.py"] "2" "" [] 2
    (mostrar_codigo envDemo (pathJoin temaPath "empty.py")).snd
    rfl (by decide) rfl (by decide) rfl
  exact ⟨rfl, h.1, h.2.2⟩

/-- Witness for C4 at a concrete world: both a missing file and an
existing file whose bytes are not valid UTF-8. -/
theorem C4_view_failure_witness :
    (mostrar_codigo envBroken "nofile.py").fst = none ∧
    logCount (mostrar_codigo envBroken "nofile.py").snd = 1 ∧
    (mostrar_codigo envDemo (pathJoin temaPath "bad.py")).fst = none ∧
    logCount (mostrar_codigo envDemo (pathJoin temaPath "bad.py")).snd = 1 := by
  refine ⟨(C4_view_failure envBroken "nofile.py" (Or.inl ⟨_, rfl⟩)).1,
    (C4_view_failure envBroken "nofile.py" (Or.inl ⟨_, rfl⟩)).2.1,
    (C4_view_failure envDemo (pathJoin temaPath "bad.py") (Or.inr ⟨[128], rfl, rfl⟩)).1,
    (C4_view_failure envDemo (pathJoin temaPath "bad.py") (Or.inr ⟨[128], rfl, rfl⟩)).2.1⟩

end Dashboard
